import Mathlib

/-!
Shallow embedding of the durable job queue, chart repository and worker loop of
the document-processing service (src/src/db/chartRepository.js — QueueService and
ChartRepository — and src/src/worker/documentWorker.js), with theorems checking
the claims of the specification about them.

Timestamps are integers (`Int`), NULLable columns are `Option`, and the
`processing_queue` / `charts` tables are lists of rows in insertion order.
-/

namespace AutoCode

/-- Values of the `processing_queue.status` column:
`pending | processing | completed | failed`. -/
inductive JobStatus where
  | pending
  | processing
  | completed
  | failed
deriving DecidableEq, Repr

/-- A row of the `processing_queue` table. Field names follow the columns used by
`QueueService` (src/src/db/chartRepository.js). `rowId` is the SERIAL `id` primary
key; `worker_id` is what the spec calls `worker_owner`. -/
structure Job where
  rowId : Nat
  job_id : String
  chart_id : Nat
  chart_number : String
  status : JobStatus
  job_data : String
  attempts : Nat
  max_attempts : Nat
  worker_id : Option String
  locked_at : Option Int
  created_at : Int
  started_at : Option Int
  completed_at : Option Int
  error_message : Option String
deriving DecidableEq, Repr

/-- `QueueService.addJob`: INSERT of a pending row with the given job data.
The CREATE TABLE of `processing_queue` is not under src, so the column defaults
are modelled from the spec: `attempts = 0`, `max_attempts` a fixed ceiling of 3,
lock and completion columns NULL. -/
def addJob (rowId : Nat) (jobId : String) (chartId : Nat) (chartNumber : String)
    (jobData : String) (now : Int) (q : List Job) : Job × List Job :=
  let j : Job :=
    { rowId := rowId
      job_id := jobId
      chart_id := chartId
      chart_number := chartNumber
      status := .pending
      job_data := jobData
      attempts := 0
      max_attempts := 3
      worker_id := none
      locked_at := none
      created_at := now
      started_at := none
      completed_at := none
      error_message := none }
  (j, q ++ [j])

/-- The claim-eligibility predicate of the SELECT of `QueueService.claimNextJob`:
`status = pending OR (status = failed AND attempts < max_attempts)`. -/
def eligible (j : Job) : Bool :=
  j.status = JobStatus.pending ||
    (j.status = JobStatus.failed && j.attempts < j.max_attempts)

/-- Of two rows, the one with the strictly older `created_at`; the first on a tie.
Folding this over the table realises `ORDER BY created_at ASC LIMIT 1`. -/
def olderOf (a b : Job) : Job :=
  if b.created_at < a.created_at then b else a

/-- The row selected by the SELECT of `claimNextJob`: the first row in table order with
minimal `created_at` among the eligible rows, `none` when no row is eligible. -/
def selectOldest (q : List Job) : Option Job :=
  match q.filter eligible with
  | [] => none
  | j :: js => some (js.foldl olderOf j)

/-- The UPDATE applied by `claimNextJob` to the selected row:
`status=processing, worker_id=$1, locked_at=now,
started_at=COALESCE(started_at, now), attempts=attempts+1`. -/
def claimUpdate (workerId : String) (now : Int) (j : Job) : Job :=
  { j with
    status := .processing
    worker_id := some workerId
    locked_at := some now
    started_at := some (j.started_at.getD now)
    attempts := j.attempts + 1 }

/-- Apply `f` to the row with primary key `rowId` (the UPDATE ... WHERE id = $2). -/
def updateRow (rowId : Nat) (f : Job → Job) (q : List Job) : List Job :=
  q.map fun j => if j.rowId = rowId then f j else j

/-- The object `claimNextJob` returns on a match:
the spread of the pre-update row patched with status processing and worker_id — so with
only `status` and `worker_id` overwritten (its `attempts`, `locked_at` and
`started_at` are the values from before the UPDATE). -/
def claimReturn (workerId : String) (j : Job) : Job :=
  { j with status := .processing, worker_id := some workerId }

/-- `QueueService.claimNextJob`: select the oldest eligible row, update it to
processing, and return the pre-update snapshot patched with
`status`/`worker_id`; `(none, q)` when no row is eligible. -/
def claimNextJob (workerId : String) (now : Int) (q : List Job) :
    Option Job × List Job :=
  match selectOldest q with
  | none => (none, q)
  | some j =>
      (some (claimReturn workerId j), updateRow j.rowId (claimUpdate workerId now) q)

/-- Apply `f` to every row with the given `job_id` (UPDATE ... WHERE job_id = $1). -/
def updateWhereJobId (jobId : String) (f : Job → Job) (q : List Job) : List Job :=
  q.map fun j => if j.job_id = jobId then f j else j

/-- `result.rows[0]` of a RETURNING * on rows matching `job_id`. -/
def returningFirst (jobId : String) (q : List Job) : Option Job :=
  (q.filter fun j => j.job_id = jobId).head?

/-- The UPDATE of `QueueService.completeJob`:
`status=completed, completed_at=now, locked_at=NULL` (note: `worker_id` is not
touched). -/
def completeUpdate (now : Int) (j : Job) : Job :=
  { j with status := .completed, completed_at := some now, locked_at := none }

/-- `QueueService.completeJob`: update the row with the given `job_id` and return
it (`none` when no such row exists). -/
def completeJob (jobId : String) (now : Int) (q : List Job) :
    Option Job × List Job :=
  let q' := updateWhereJobId jobId (completeUpdate now) q
  (returningFirst jobId q', q')

/-- The UPDATE of `QueueService.failJob`:
`status=failed, error_message=$2, locked_at=NULL` (note: `worker_id` is not
touched). -/
def failUpdate (msg : String) (j : Job) : Job :=
  { j with status := .failed, error_message := some msg, locked_at := none }

/-- `QueueService.failJob`: update the row with the given `job_id` and return it. -/
def failJob (jobId : String) (msg : String) (q : List Job) :
    Option Job × List Job :=
  let q' := updateWhereJobId jobId (failUpdate msg) q
  (returningFirst jobId q', q')

/-- The permanence test `job.attempts >= job.max_attempts` that `failJob` applies
to the row it returns. -/
def isPermanentlyFailed (j : Job) : Bool :=
  j.max_attempts ≤ j.attempts

/-- The WHERE clause of `QueueService.releaseStuckJobs`:
`status = processing AND locked_at < NOW() - minutes($1)`
(a NULL `locked_at` does not match). Times are in minutes. -/
def isStuck (stuckMinutes : Int) (now : Int) (j : Job) : Bool :=
  j.status = JobStatus.processing &&
    match j.locked_at with
    | some t => t < now - stuckMinutes
    | none => false

/-- The UPDATE of `releaseStuckJobs`: `status=pending, worker_id=NULL,
locked_at=NULL, error_message=Released: worker timeout`. -/
def releaseUpdate (j : Job) : Job :=
  { j with
    status := .pending
    worker_id := none
    locked_at := none
    error_message := some "Released: worker timeout" }

/-- `QueueService.releaseStuckJobs`: reset every stuck row to pending; the first
component is the RETURNING * list of released rows. -/
def releaseStuckJobs (stuckMinutes : Int) (now : Int) (q : List Job) :
    List Job × List Job :=
  ((q.filter (isStuck stuckMinutes now)).map releaseUpdate,
   q.map fun j => if isStuck stuckMinutes now j then releaseUpdate j else j)

/-- A row of the `charts` table — the columns the queue subsystem and
`ChartRepository.create` touch (schema in the database init script;
`chart_number` is UNIQUE). -/
structure Chart where
  chart_number : String
  mrn : String
  facility : Option String
  specialty : Option String
  date_of_service : Option String
  provider : Option String
  document_count : Int
  ai_status : String
  review_status : String
  processing_started_at : Option Int
  processing_completed_at : Option Int
  created_at : Int
  updated_at : Int
deriving DecidableEq, Repr

/-- The argument record of `ChartRepository.create`. -/
structure ChartData where
  chartNumber : String
  mrn : String
  facility : Option String
  specialty : Option String
  dateOfService : Option String
  provider : Option String
  documentCount : Int
deriving DecidableEq, Repr

/-- The `ON CONFLICT (chart_number) DO UPDATE` branch of `ChartRepository.create`:
overwrite the listed columns from the EXCLUDED row, force
`ai_status = processing`, and stamp `processing_started_at`/`updated_at`. -/
def upsertChart (d : ChartData) (now : Int) (c : Chart) : Chart :=
  { c with
    mrn := d.mrn
    facility := d.facility
    specialty := d.specialty
    date_of_service := d.dateOfService
    provider := d.provider
    document_count := d.documentCount
    ai_status := "processing"
    processing_started_at := some now
    updated_at := now }

/-- The plain INSERT branch of `ChartRepository.create`:
`ai_status = processing`, `review_status = pending`,
`processing_started_at = CURRENT_TIMESTAMP`; `created_at`/`updated_at` from the
schema defaults. -/
def insertChart (d : ChartData) (now : Int) : Chart :=
  { chart_number := d.chartNumber
    mrn := d.mrn
    facility := d.facility
    specialty := d.specialty
    date_of_service := d.dateOfService
    provider := d.provider
    document_count := d.documentCount
    ai_status := "processing"
    review_status := "pending"
    processing_started_at := some now
    processing_completed_at := none
    created_at := now
    updated_at := now }

/-- `ChartRepository.create`: INSERT ... ON CONFLICT (chart_number) DO UPDATE.
When a row with the chart number exists it is updated in place; otherwise a new
row is appended. -/
def chartCreate (d : ChartData) (now : Int) (cs : List Chart) : List Chart :=
  if cs.any fun c => c.chart_number = d.chartNumber then
    cs.map fun c =>
      if c.chart_number = d.chartNumber then upsertChart d now c else c
  else
    cs ++ [insertChart d now]

/-! ### Worker loop (src/src/worker/documentWorker.js, `processNextJob`)

The effects of the worker on its collaborators are modelled as explicit traces: the
`ChartRepository` status writes, the `DocumentRepository` writes, the argument of
the `aiService.processForCoding` call (if it is made), and the final
`QueueService` call. OCR and AI outcomes are inputs (black-box collaborators). -/

/-- One entry of the `documents` array of the `job_data` of the job. -/
structure Doc where
  documentId : Nat
  s3Url : String
  originalName : String
  documentType : String
deriving DecidableEq, Repr

/-- Outcome of `performOCR` for one document (the OCR collaborator is a black
box; `success = false` also covers download errors caught in `performOCR`). -/
structure OCRResult where
  success : Bool
  extractedText : String
  processingTime : Int
  error : String
deriving DecidableEq, Repr

/-- One element of the `ocrResults` array of the worker. -/
structure OCREntry where
  success : Bool
  documentId : Nat
  extractedText : String
  error : String
deriving DecidableEq, Repr

/-- Outcome of the `aiService.processForCoding` call (black box). -/
structure AIResult where
  success : Bool
  error : String
deriving DecidableEq, Repr

/-- A `ChartRepository` write made by the worker: `updateStatus(chartNumber, s)`
or `updateWithAIResults(chartNumber, ...)` (which sets `ai_status = ready`). -/
inductive ChartWrite where
  | status (chartNumber : String) (aiStatus : String)
  | aiResults (chartNumber : String)
deriving DecidableEq, Repr

/-- A `DocumentRepository` write made by the worker. -/
inductive DocWrite where
  | ocrResults (documentId : Nat) (text : String)
  | ocrFailed (documentId : Nat) (error : String)
  | aiSummary (documentId : Nat)
deriving DecidableEq, Repr

/-- The final `QueueService` call of the worker for a claimed job. -/
inductive QueueCall where
  | complete (jobId : String)
  | fail (jobId : String) (msg : String)
deriving DecidableEq, Repr

/-- The observable effects of one `processNextJob` run on a claimed job. -/
structure WorkerRun where
  chartWrites : List ChartWrite
  docWrites : List DocWrite
  aiCall : Option (List OCREntry)
  queueCall : QueueCall
deriving DecidableEq, Repr

/-- The `ocrResults` entry the worker pushes for document `d` with OCR outcome
`r`: on success the spread of the OCR result with the identity of the document, on
failure `{ success: false, ..., error }`. -/
def ocrEntry (d : Doc) (r : OCRResult) : OCREntry :=
  if r.success then
    { success := true
      documentId := d.documentId
      extractedText := r.extractedText
      error := "" }
  else
    { success := false
      documentId := d.documentId
      extractedText := ""
      error := r.error }

/-- The per-document `DocumentRepository` write of the OCR loop:
`updateOCRResults` on success. `markOCRFailed` on failure is modelled from the
spec: `DocumentRepository.markOCRFailed` is called by the worker but its
definition is not under src — per the spec the document record is marked
OCR-failed with the error. -/
def ocrWrite (d : Doc) (r : OCRResult) : DocWrite :=
  if r.success then
    DocWrite.ocrResults d.documentId r.extractedText
  else
    DocWrite.ocrFailed d.documentId r.error

/-- Modelled from the spec: `ocrService.formatForAI` is called by the worker but
`ocrService` is not under src. Per the spec the AI coding phase consumes the
successfully extracted documents, so formatting keeps exactly the successful
entries. -/
def formatForAI (rs : List OCREntry) : List OCREntry :=
  rs.filter fun r => r.success

/-- The catch block of the worker: `failJob(job.job_id, msg)`, then
`updateStatus(chartNumber, failed)` iff `job.attempts >= job.max_attempts` —
where `job` is the snapshot returned by `claimNextJob`, whose `attempts` is the
pre-increment value. -/
def workerCatch (job : Job) (chartNumber : String) (chartWrites : List ChartWrite)
    (docWrites : List DocWrite) (aiCall : Option (List OCREntry)) (msg : String) :
    WorkerRun :=
  { chartWrites := chartWrites ++
      (if job.max_attempts ≤ job.attempts then
        [ChartWrite.status chartNumber "failed"]
      else [])
    docWrites := docWrites
    aiCall := aiCall
    queueCall := QueueCall.fail job.job_id msg }

/-- `DocumentWorker.processNextJob` after a successful claim. `job` is the object
`claimNextJob` returned; `chartNumber` and `docs` come from `job_data`; each
document is paired with its black-box OCR outcome; `ai` is the outcome of the
`processForCoding` call (used only if that call is reached); `summaryOk` gives
the best-effort per-document summary outcomes of phase 3. -/
def processClaimedJob (job : Job) (chartNumber : String)
    (docs : List (Doc × OCRResult)) (ai : AIResult) (summaryOk : Nat → Bool) :
    WorkerRun :=
  let startWrites := [ChartWrite.status chartNumber "processing"]
  let ocrResults := docs.map fun p => ocrEntry p.1 p.2
  let ocrWrites := docs.map fun p => ocrWrite p.1 p.2
  let successfulOCR := ocrResults.filter fun r => r.success
  if successfulOCR.isEmpty then
    workerCatch job chartNumber startWrites ocrWrites none
      "All OCR processing failed"
  else if !ai.success then
    workerCatch job chartNumber startWrites ocrWrites
      (some (formatForAI ocrResults)) ("AI processing failed: " ++ ai.error)
  else
    let summaryWrites :=
      (successfulOCR.filter fun e => summaryOk e.documentId).map
        fun e => DocWrite.aiSummary e.documentId
    { chartWrites := startWrites ++ [ChartWrite.aiResults chartNumber]
      docWrites := ocrWrites ++ summaryWrites
      aiCall := some (formatForAI ocrResults)
      queueCall := QueueCall.complete job.job_id }

/-! ### Invariant of claim C9 -/

/-- Every row observable as processing carries a claimant and a claim timestamp:
`status = processing → worker_id IS NOT NULL AND locked_at IS NOT NULL`. -/
def ProcessingOwned (q : List Job) : Prop :=
  ∀ j ∈ q, j.status = JobStatus.processing →
    j.worker_id.isSome = true ∧ j.locked_at.isSome = true

/-! ### Concrete rows used to instantiate the theorems -/

/-- A freshly inserted pending job: attempts 0, max_attempts 3, created at time 0. -/
def jobP : Job :=
  { rowId := 1, job_id := "job-1", chart_id := 7, chart_number := "CH-1",
    status := .pending, job_data := "d", attempts := 0, max_attempts := 3,
    worker_id := none, locked_at := none, created_at := 0,
    started_at := none, completed_at := none, error_message := none }

/-- A processing job held by worker w1, locked at time 5. -/
def jobProc : Job :=
  { jobP with
    status := .processing
    worker_id := some "w1"
    locked_at := some 5
    started_at := some 5
    attempts := 1 }

/-- A job already completed at time 10. -/
def jobDone : Job :=
  { jobP with
    status := .completed
    completed_at := some 10
    started_at := some 2
    attempts := 1
    worker_id := some "w1" }

/-- Retry-ceiling scenario, queue after the 1st claim (worker wA at time 10). -/
def c5q1 : List Job := (claimNextJob "wA" 10 [jobP]).2

/-- Retry-ceiling scenario, queue after the 1st failure. -/
def c5q2 : List Job := (failJob "job-1" "e1" c5q1).2

/-- Retry-ceiling scenario, queue after the 2nd claim (worker wB at time 20). -/
def c5q3 : List Job := (claimNextJob "wB" 20 c5q2).2

/-- Retry-ceiling scenario, queue after the 2nd failure. -/
def c5q4 : List Job := (failJob "job-1" "e2" c5q3).2

/-- Retry-ceiling scenario, queue after the 3rd claim (worker wC at time 30). -/
def c5q5 : List Job := (claimNextJob "wC" 30 c5q4).2

/-- Retry-ceiling scenario, the 3rd `failJob` call (returned row and new queue). -/
def c5fail3 : Option Job × List Job := failJob "job-1" "e3" c5q5

/-- Sample document 1 of a three-document job. -/
def doc1 : Doc :=
  { documentId := 101, s3Url := "u1", originalName := "a.pdf", documentType := "ED" }

/-- Sample document 2 of a three-document job. -/
def doc2 : Doc :=
  { documentId := 102, s3Url := "u2", originalName := "b.pdf", documentType := "ED" }

/-- Sample document 3 of a three-document job. -/
def doc3 : Doc :=
  { documentId := 103, s3Url := "u3", originalName := "c.pdf", documentType := "ED" }

/-- A successful OCR outcome with text t1. -/
def ocrOK1 : OCRResult :=
  { success := true, extractedText := "t1", processingTime := 4, error := "" }

/-- A successful OCR outcome with text t3. -/
def ocrOK3 : OCRResult :=
  { success := true, extractedText := "t3", processingTime := 6, error := "" }

/-- A failed OCR outcome. -/
def ocrBad : OCRResult :=
  { success := false, extractedText := "", processingTime := 2, error := "bad scan" }

/-- A successful AI coding outcome. -/
def aiOK : AIResult := { success := true, error := "" }

/-- A failed AI coding outcome. -/
def aiBad : AIResult := { success := false, error := "model error" }

/-- The snapshot `claimNextJob` hands the worker for `jobP` (first claim). -/
def jobClaimed : Job := claimReturn "wA" jobP

/-- An existing chart row with chart number CH-1. -/
def chart1 : Chart :=
  { chart_number := "CH-1", mrn := "M1", facility := some "F", specialty := none,
    date_of_service := none, provider := none, document_count := 2,
    ai_status := "ready", review_status := "in_review",
    processing_started_at := some 1, processing_completed_at := some 2,
    created_at := 0, updated_at := 2 }

/-- A duplicate submission for chart number CH-1 with fresh metadata. -/
def chartData1 : ChartData :=
  { chartNumber := "CH-1", mrn := "M2", facility := some "G", specialty := some "S",
    dateOfService := some "2024-01-02", provider := some "P", documentCount := 3 }

/-! ### Helper lemmas -/

/-- `olderOf` returns one of its two arguments. -/
theorem olderOf_eq_or (a b : Job) : olderOf a b = a ∨ olderOf a b = b := by
  unfold olderOf; split <;> simp

/-- `olderOf` never increases `created_at` relative to its left argument. -/
theorem olderOf_le_left (a b : Job) : (olderOf a b).created_at ≤ a.created_at := by
  unfold olderOf; split <;> omega

/-- `olderOf` never increases `created_at` relative to its right argument. -/
theorem olderOf_le_right (a b : Job) : (olderOf a b).created_at ≤ b.created_at := by
  unfold olderOf; split <;> omega

/-- The fold realising ORDER BY ... LIMIT 1 returns an element of the list. -/
theorem foldl_olderOf_mem (js : List Job) (j : Job) :
    js.foldl olderOf j ∈ j :: js := by
  induction js generalizing j with
  | nil => simp
  | cons b bs ih =>
      have h := ih (olderOf j b)
      simp only [List.foldl_cons]
      rcases List.mem_cons.mp h with h1 | h1
      · rcases olderOf_eq_or j b with h2 | h2
        · rw [h1, h2]; exact List.mem_cons_self _ _
        · rw [h1, h2]
          exact List.mem_cons_of_mem _ (List.mem_cons_self _ _)
      · exact List.mem_cons_of_mem _ (List.mem_cons_of_mem _ h1)

/-- The fold realising ORDER BY ... LIMIT 1 attains the minimal `created_at`. -/
theorem foldl_olderOf_le (js : List Job) (j : Job) :
    ∀ k ∈ j :: js, (js.foldl olderOf j).created_at ≤ k.created_at := by
  induction js generalizing j with
  | nil =>
      intro k hk
      rcases List.mem_cons.mp hk with h1 | h1
      · rw [h1]; simp
      · simp at h1
  | cons b bs ih =>
      intro k hk
      simp only [List.foldl_cons]
      have hle : (bs.foldl olderOf (olderOf j b)).created_at ≤
          (olderOf j b).created_at :=
        ih (olderOf j b) (olderOf j b) (List.mem_cons_self _ _)
      rcases List.mem_cons.mp hk with h1 | h1
      · rw [h1]; exact le_trans hle (olderOf_le_left j b)
      · rcases List.mem_cons.mp h1 with h2 | h2
        · rw [h2]; exact le_trans hle (olderOf_le_right j b)
        · exact ih (olderOf j b) k (List.mem_cons_of_mem _ h2)

/-- A selected row is an eligible row of the table. -/
theorem selectOldest_mem {q : List Job} {j : Job} (h : selectOldest q = some j) :
    j ∈ q ∧ eligible j = true := by
  unfold selectOldest at h
  split at h
  · exact absurd h (by simp)
  · rename_i a as heq
    have hj : as.foldl olderOf a = j := by simpa using h
    have hmem : j ∈ a :: as := hj ▸ foldl_olderOf_mem as a
    have hq : j ∈ q.filter eligible := heq ▸ hmem
    exact ⟨(List.mem_filter.mp hq).1, (List.mem_filter.mp hq).2⟩

/-- A selected row has minimal `created_at` among the eligible rows. -/
theorem selectOldest_min {q : List Job} {j : Job} (h : selectOldest q = some j) :
    ∀ k ∈ q, eligible k = true → j.created_at ≤ k.created_at := by
  intro k hk hek
  unfold selectOldest at h
  split at h
  · exact absurd h (by simp)
  · rename_i a as heq
    have hj : as.foldl olderOf a = j := by simpa using h
    have hkf : k ∈ a :: as := heq ▸ List.mem_filter.mpr ⟨hk, hek⟩
    have hfin := foldl_olderOf_le as a k hkf
    rwa [hj] at hfin

/-- With no eligible row the selection is empty. -/
theorem selectOldest_eq_none {q : List Job} (h : q.filter eligible = []) :
    selectOldest q = none := by
  unfold selectOldest
  rw [h]

/-- Mapping a row transformer that preserves the ownership invariant preserves
`ProcessingOwned`. -/
theorem ProcessingOwned_map {q : List Job} {f : Job → Job}
    (hf : ∀ j ∈ q, (f j).status = JobStatus.processing →
      (f j).worker_id.isSome = true ∧ (f j).locked_at.isSome = true) :
    ProcessingOwned (q.map f) := by
  intro j hj hs
  rcases List.mem_map.mp hj with ⟨k, hk, rfl⟩
  exact hf k hk hs

/-- A column projection of `updateWhereJobId` rewritten pointwise. -/
theorem map_updateWhereJobId {β : Type} (g : Job → β) (jobId : String)
    (f : Job → Job) (q : List Job) :
    (updateWhereJobId jobId f q).map g =
      q.map fun k => if k.job_id = jobId then g (f k) else g k := by
  unfold updateWhereJobId
  rw [List.map_map]
  apply List.map_congr_left
  intro a _
  by_cases hk : a.job_id = jobId <;> simp [hk]

/-! ### Claims -/

/-- C3 counterexample: completing (and likewise failing) a processing job held by
worker w1 succeeds — the row leaves status processing — yet its worker_owner is
still w1 afterwards, not null as the claim states. -/
theorem C3_counterexample :
    ((completeJob "job-1" 20 [jobProc]).1.map Job.status =
      some JobStatus.completed) ∧
    ((completeJob "job-1" 20 [jobProc]).1.map Job.worker_id =
      some (some "w1")) ∧
    ((failJob "job-1" "boom" [jobProc]).1.map Job.status =
      some JobStatus.failed) ∧
    ((failJob "job-1" "boom" [jobProc]).1.map Job.worker_id =
      some (some "w1")) := by
  decide

/-- C3 (amended): worker_owner is set by claimNextJob and cleared by
releaseStuckJobs; completeJob and failJob clear only locked_at and leave
worker_owner untouched on every row. -/
theorem C3_amended (w jobId msg : String) (now t m : Int) (q : List Job)
    (j : Job) :
    (claimUpdate w now j).worker_id = some w ∧
    ((completeJob jobId t q).2.map Job.worker_id = q.map Job.worker_id) ∧
    ((completeJob jobId t q).2.map Job.locked_at =
      q.map fun k => if k.job_id = jobId then none else k.locked_at) ∧
    ((failJob jobId msg q).2.map Job.worker_id = q.map Job.worker_id) ∧
    ((failJob jobId msg q).2.map Job.locked_at =
      q.map fun k => if k.job_id = jobId then none else k.locked_at) ∧
    ((releaseStuckJobs m t q).1 = (q.filter (isStuck m t)).map releaseUpdate) ∧
    (releaseUpdate j).worker_id = none ∧
    (releaseUpdate j).locked_at = none := by
  refine ⟨rfl, ?_, ?_, ?_, ?_, rfl, rfl, rfl⟩
  · rw [show (completeJob jobId t q).2 =
        updateWhereJobId jobId (completeUpdate t) q from rfl,
      map_updateWhereJobId]
    apply List.map_congr_left
    intro a _
    by_cases hk : a.job_id = jobId <;> simp [hk, completeUpdate]
  · rw [show (completeJob jobId t q).2 =
        updateWhereJobId jobId (completeUpdate t) q from rfl,
      map_updateWhereJobId]
    rfl
  · rw [show (failJob jobId msg q).2 =
        updateWhereJobId jobId (failUpdate msg) q from rfl,
      map_updateWhereJobId]
    apply List.map_congr_left
    intro a _
    by_cases hk : a.job_id = jobId <;> simp [hk, failUpdate]
  · rw [show (failJob jobId msg q).2 =
        updateWhereJobId jobId (failUpdate msg) q from rfl,
      map_updateWhereJobId]
    rfl

/-- C4 counterexample: completing the already-completed job jobDone (completed at
time 10) again at time 20 does not return the row unchanged — completed_at is
overwritten to 20. -/
theorem C4_counterexample :
    ((completeJob "job-1" 20 [jobDone]).1.map Job.status =
      some JobStatus.completed) ∧
    ((completeJob "job-1" 20 [jobDone]).1.map Job.completed_at =
      some (some 20)) ∧
    jobDone.completed_at = some 10 ∧
    ¬ (completeJob "job-1" 20 [jobDone]).1 = some jobDone := by
  decide

/-- C4 (amended): completing an already-completed job does not error, leaves the
status completed, changes nothing but completed_at — which is overwritten with
the current timestamp — and is idempotent at a fixed timestamp. -/
theorem C4_amended (now : Int) (j : Job) (h1 : j.status = JobStatus.completed)
    (h2 : j.locked_at = none) :
    completeUpdate now j = { j with completed_at := some now } ∧
    (completeUpdate now j).status = JobStatus.completed ∧
    completeUpdate now (completeUpdate now j) = completeUpdate now j ∧
    (completeJob j.job_id now [j]).1 = some { j with completed_at := some now } := by
  have hupd : completeUpdate now j = { j with completed_at := some now } := by
    unfold completeUpdate
    rw [← h1, ← h2]
  refine ⟨hupd, rfl, rfl, ?_⟩
  simp [completeJob, updateWhereJobId, returningFirst, hupd]

/-- C4 (amended) witness: instantiated at jobDone and time 20. -/
theorem C4_amended_witness :
    completeUpdate 20 jobDone = { jobDone with completed_at := some 20 } ∧
    (completeUpdate 20 jobDone).status = JobStatus.completed ∧
    completeUpdate 20 (completeUpdate 20 jobDone) = completeUpdate 20 jobDone ∧
    (completeJob jobDone.job_id 20 [jobDone]).1 =
      some { jobDone with completed_at := some 20 } :=
  C4_amended 20 jobDone (by decide) (by decide)

/-- C6: a job processing with locked_at = T is released (reset to pending with
worker_owner and locked_at null) by releaseStuckJobs 30 evaluated at T+31, and
untouched when evaluated at T+10. -/
theorem C6_release (j : Job) (T : Int) (h1 : j.status = JobStatus.processing)
    (h2 : j.locked_at = some T) :
    releaseStuckJobs 30 (T + 31) [j] = ([releaseUpdate j], [releaseUpdate j]) ∧
    (releaseUpdate j).status = JobStatus.pending ∧
    (releaseUpdate j).worker_id = none ∧
    (releaseUpdate j).locked_at = none ∧
    releaseStuckJobs 30 (T + 10) [j] = ([], [j]) := by
  have hs1 : isStuck 30 (T + 31) j = true := by
    simp [isStuck, h1, h2]
    omega
  have hs2 : isStuck 30 (T + 10) j = false := by
    simp [isStuck, h1, h2]
  refine ⟨?_, rfl, rfl, rfl, ?_⟩
  · simp [releaseStuckJobs, hs1]
  · simp [releaseStuckJobs, hs2]

/-- C6 witness: instantiated at the processing job jobProc, locked at T = 5. -/
theorem C6_release_witness :
    releaseStuckJobs 30 (5 + 31) [jobProc] =
      ([releaseUpdate jobProc], [releaseUpdate jobProc]) ∧
    (releaseUpdate jobProc).status = JobStatus.pending ∧
    (releaseUpdate jobProc).worker_id = none ∧
    (releaseUpdate jobProc).locked_at = none ∧
    releaseStuckJobs 30 (5 + 10) [jobProc] = ([], [jobProc]) :=
  C6_release jobProc 5 (by decide) (by decide)

/-- C10: creating a chart whose chart_number already exists updates the existing
row in place — same number of rows, the matching rows overwritten with the new
mrn, facility, specialty, date_of_service, provider and document_count, ai_status
reset to processing and processing_started_at to now. -/
theorem C10_upsert (d : ChartData) (now : Int) (cs : List Chart)
    (h : (cs.any fun c => c.chart_number = d.chartNumber) = true) :
    chartCreate d now cs =
      cs.map (fun c =>
        if c.chart_number = d.chartNumber then upsertChart d now c else c) ∧
    (chartCreate d now cs).length = cs.length ∧
    ∀ c : Chart,
      (upsertChart d now c).chart_number = c.chart_number ∧
      (upsertChart d now c).mrn = d.mrn ∧
      (upsertChart d now c).facility = d.facility ∧
      (upsertChart d now c).specialty = d.specialty ∧
      (upsertChart d now c).date_of_service = d.dateOfService ∧
      (upsertChart d now c).provider = d.provider ∧
      (upsertChart d now c).document_count = d.documentCount ∧
      (upsertChart d now c).ai_status = "processing" ∧
      (upsertChart d now c).processing_started_at = some now := by
  refine ⟨?_, ?_, ?_⟩
  · simp [chartCreate, h]
  · simp [chartCreate, h]
  · intro c
    exact ⟨rfl, rfl, rfl, rfl, rfl, rfl, rfl, rfl, rfl⟩

/-- C10 witness: a duplicate submission for CH-1 against a one-row charts table. -/
theorem C10_upsert_witness :
    chartCreate chartData1 9 [chart1] =
      [chart1].map (fun c =>
        if c.chart_number = chartData1.chartNumber then upsertChart chartData1 9 c
        else c) ∧
    (chartCreate chartData1 9 [chart1]).length = [chart1].length ∧
    ∀ c : Chart,
      (upsertChart chartData1 9 c).chart_number = c.chart_number ∧
      (upsertChart chartData1 9 c).mrn = chartData1.mrn ∧
      (upsertChart chartData1 9 c).facility = chartData1.facility ∧
      (upsertChart chartData1 9 c).specialty = chartData1.specialty ∧
      (upsertChart chartData1 9 c).date_of_service = chartData1.dateOfService ∧
      (upsertChart chartData1 9 c).provider = chartData1.provider ∧
      (upsertChart chartData1 9 c).document_count = chartData1.documentCount ∧
      (upsertChart chartData1 9 c).ai_status = "processing" ∧
      (upsertChart chartData1 9 c).processing_started_at = some 9 :=
  C10_upsert chartData1 9 [chart1] (by decide)

/-- C5: retry ceiling for jobP (max_attempts = 3). After two claim-and-fail
cycles the job is still claimable (the third claim succeeds) and the second
failure is not reported permanent; the third failJob returns a row with
attempts = 3 and isPermanentlyFailed = true; afterwards claimNextJob finds
nothing and the row is no longer eligible. -/
theorem C5_retry_ceiling :
    ((failJob "job-1" "e2" c5q3).1.map isPermanentlyFailed = some false) ∧
    ((claimNextJob "wC" 30 c5q4).1.map Job.status = some JobStatus.processing) ∧
    ((claimNextJob "wC" 30 c5q4).1.map Job.attempts = some 2) ∧
    (c5fail3.1.map Job.attempts = some 3) ∧
    (c5fail3.1.map isPermanentlyFailed = some true) ∧
    ((claimNextJob "wD" 40 c5fail3.2).1 = none) ∧
    ((c5fail3.2.all fun j => !(eligible j)) = true) := by
  decide

/-- C2 counterexample: claiming the lone pending job jobP stores a row with
attempts = 1 and locked_at = 10, but the object claimNextJob returns still shows
attempts = 0 and locked_at null — it is not the updated row. -/
theorem C2_counterexample :
    ((claimNextJob "w1" 10 [jobP]).1.map Job.attempts = some 0) ∧
    ((claimNextJob "w1" 10 [jobP]).1.map Job.locked_at = some none) ∧
    ((claimNextJob "w1" 10 [jobP]).1.map Job.started_at = some none) ∧
    ((claimNextJob "w1" 10 [jobP]).2.map Job.attempts = [1]) ∧
    ((claimNextJob "w1" 10 [jobP]).2.map Job.locked_at = [some 10]) ∧
    ((claimNextJob "w1" 10 [jobP]).2.map Job.started_at = [some 10]) ∧
    ¬ (claimNextJob "w1" 10 [jobP]).1 = (claimNextJob "w1" 10 [jobP]).2.head? := by
  decide

/-- C2 (amended): with no eligible job claimNextJob returns none and leaves the
queue unchanged; otherwise it selects an eligible job with the oldest created_at
(FIFO), stores that row updated to status processing, worker_owner = workerId,
locked_at = now, started_at = COALESCE(started_at, now) and attempts + 1, and
returns the pre-update row patched only with status and worker_owner — not the
updated row. -/
theorem C2_amended (workerId : String) (now : Int) (q : List Job) :
    (q.filter eligible = [] → claimNextJob workerId now q = (none, q)) ∧
    ∀ j, selectOldest q = some j →
      eligible j = true ∧ j ∈ q ∧
      (∀ k ∈ q, eligible k = true → j.created_at ≤ k.created_at) ∧
      claimNextJob workerId now q =
        (some { j with status := JobStatus.processing, worker_id := some workerId },
         updateRow j.rowId (claimUpdate workerId now) q) ∧
      (claimUpdate workerId now j).status = JobStatus.processing ∧
      (claimUpdate workerId now j).worker_id = some workerId ∧
      (claimUpdate workerId now j).locked_at = some now ∧
      (claimUpdate workerId now j).started_at = some (j.started_at.getD now) ∧
      (claimUpdate workerId now j).attempts = j.attempts + 1 := by
  constructor
  · intro h
    unfold claimNextJob
    rw [selectOldest_eq_none h]
  · intro j hj
    obtain ⟨hmem, helig⟩ := selectOldest_mem hj
    refine ⟨helig, hmem, selectOldest_min hj, ?_, rfl, rfl, rfl, rfl, rfl⟩
    unfold claimNextJob
    rw [hj]
    rfl

/-- C2 (amended) witness: instantiated at the singleton queue holding jobP. -/
theorem C2_amended_witness :
    eligible jobP = true ∧ jobP ∈ [jobP] ∧
    (∀ k ∈ [jobP], eligible k = true → jobP.created_at ≤ k.created_at) ∧
    claimNextJob "w1" 10 [jobP] =
      (some { jobP with status := JobStatus.processing, worker_id := some "w1" },
       updateRow jobP.rowId (claimUpdate "w1" 10) [jobP]) ∧
    (claimUpdate "w1" 10 jobP).status = JobStatus.processing ∧
    (claimUpdate "w1" 10 jobP).worker_id = some "w1" ∧
    (claimUpdate "w1" 10 jobP).locked_at = some 10 ∧
    (claimUpdate "w1" 10 jobP).started_at = some (jobP.started_at.getD 10) ∧
    (claimUpdate "w1" 10 jobP).attempts = jobP.attempts + 1 :=
  (C2_amended "w1" 10 [jobP]).2 jobP (by decide)

/-- C9: every queue operation (addJob, claimNextJob, completeJob, failJob,
releaseStuckJobs) preserves the invariant that a row observable as processing has
a non-null worker_owner and a non-null locked_at. -/
theorem C9_invariant (q : List Job) (h : ProcessingOwned q) (rowId chartId : Nat)
    (newJobId jobId chartNumber jobData workerId msg : String) (now m : Int) :
    ProcessingOwned (addJob rowId newJobId chartId chartNumber jobData now q).2 ∧
    ProcessingOwned (claimNextJob workerId now q).2 ∧
    ProcessingOwned (completeJob jobId now q).2 ∧
    ProcessingOwned (failJob jobId msg q).2 ∧
    ProcessingOwned (releaseStuckJobs m now q).2 := by
  refine ⟨?_, ?_, ?_, ?_, ?_⟩
  · intro j hj hs
    unfold addJob at hj
    rcases List.mem_append.mp hj with hj | hj
    · exact h j hj hs
    · simp only [List.mem_singleton] at hj
      subst hj
      simp at hs
  · unfold claimNextJob
    cases hsel : selectOldest q with
    | none => exact h
    | some jsel =>
        unfold updateRow
        apply ProcessingOwned_map
        intro k hk hs
        by_cases hr : k.rowId = jsel.rowId
        · simp only [hr, if_pos rfl] at hs ⊢
          exact ⟨rfl, rfl⟩
        · rw [if_neg hr] at hs ⊢
          exact h k hk hs
  · unfold completeJob updateWhereJobId
    apply ProcessingOwned_map
    intro k hk hs
    by_cases hr : k.job_id = jobId
    · rw [if_pos hr] at hs
      simp [completeUpdate] at hs
    · rw [if_neg hr] at hs ⊢
      exact h k hk hs
  · unfold failJob updateWhereJobId
    apply ProcessingOwned_map
    intro k hk hs
    by_cases hr : k.job_id = jobId
    · rw [if_pos hr] at hs
      simp [failUpdate] at hs
    · rw [if_neg hr] at hs ⊢
      exact h k hk hs
  · unfold releaseStuckJobs
    apply ProcessingOwned_map
    intro k hk hs
    by_cases hr : isStuck m now k = true
    · rw [if_pos hr] at hs
      simp [releaseUpdate] at hs
    · rw [if_neg hr] at hs ⊢
      exact h k hk hs

/-- C9 witness: the invariant holds for the queue holding the processing job
jobProc and is preserved by all five operations on it. -/
theorem C9_invariant_witness :
    ProcessingOwned (addJob 2 "job-2" 8 "CH-2" "d" 40 [jobProc]).2 ∧
    ProcessingOwned (claimNextJob "w9" 40 [jobProc]).2 ∧
    ProcessingOwned (completeJob "job-1" 40 [jobProc]).2 ∧
    ProcessingOwned (failJob "job-1" "boom" [jobProc]).2 ∧
    ProcessingOwned (releaseStuckJobs 30 40 [jobProc]).2 :=
  C9_invariant [jobProc]
    (by
      intro j hj hs
      simp only [List.mem_singleton] at hj
      subst hj
      exact ⟨rfl, rfl⟩)
    2 8 "job-2" "job-1" "CH-2" "d" "w9" "boom" 40 30

/-- What the catch block of the worker observably does: failJob with the thrown
message, a chart failed write exactly under the stale permanence test, and no
retry_pending write. -/
theorem workerCatch_spec (job : Job) (cn : String) (dw : List DocWrite)
    (ac : Option (List OCREntry)) (msg : String) :
    (workerCatch job cn [ChartWrite.status cn "processing"] dw ac msg).queueCall =
      QueueCall.fail job.job_id msg ∧
    (ChartWrite.status cn "failed" ∈
        (workerCatch job cn [ChartWrite.status cn "processing"] dw ac msg).chartWrites ↔
      job.max_attempts ≤ job.attempts) ∧
    ∀ s : String, ChartWrite.status s "retry_pending" ∉
      (workerCatch job cn [ChartWrite.status cn "processing"] dw ac msg).chartWrites := by
  refine ⟨rfl, ?_, ?_⟩
  · unfold workerCatch
    by_cases hperm : job.max_attempts ≤ job.attempts
    · simp [hperm]
    · simp [hperm]
  · intro s
    unfold workerCatch
    by_cases hperm : job.max_attempts ≤ job.attempts
    · simp [hperm]
    · simp [hperm]

/-- C7: when every document of a claimed job fails OCR, the worker fails the job
through failJob with the all-OCR-failed error before the AI coding phase — the
processForCoding call is never made. -/
theorem C7_all_ocr_failed (job : Job) (chartNumber : String)
    (docs : List (Doc × OCRResult)) (ai : AIResult) (summaryOk : Nat → Bool)
    (h : ∀ p ∈ docs, p.2.success = false) :
    (processClaimedJob job chartNumber docs ai summaryOk).aiCall = none ∧
    (processClaimedJob job chartNumber docs ai summaryOk).queueCall =
      QueueCall.fail job.job_id "All OCR processing failed" := by
  have hfilter :
      ((docs.map fun p => ocrEntry p.1 p.2).filter fun r => r.success) = [] := by
    apply List.filter_eq_nil_iff.mpr
    intro a ha
    rcases List.mem_map.mp ha with ⟨p, hp, rfl⟩
    simp [ocrEntry, h p hp]
  simp only [processClaimedJob, hfilter, List.isEmpty_nil, if_true]
  exact ⟨rfl, rfl⟩

/-- C7 witness: a three-document job whose documents all fail OCR. -/
theorem C7_all_ocr_failed_witness :
    (processClaimedJob jobClaimed "CH-1" [(doc1, ocrBad), (doc2, ocrBad), (doc3, ocrBad)]
      aiOK (fun _ => true)).aiCall = none ∧
    (processClaimedJob jobClaimed "CH-1" [(doc1, ocrBad), (doc2, ocrBad), (doc3, ocrBad)]
      aiOK (fun _ => true)).queueCall =
      QueueCall.fail jobClaimed.job_id "All OCR processing failed" :=
  C7_all_ocr_failed jobClaimed "CH-1" [(doc1, ocrBad), (doc2, ocrBad), (doc3, ocrBad)]
    aiOK (fun _ => true) (by decide)

/-- C8: for a claimed job with three documents where exactly document 2 fails
OCR, the worker records document 2 individually as OCR-failed with its error,
still reaches the AI coding phase, and processForCoding receives exactly the
entries of documents 1 and 3 (with their extracted text); when the AI call
succeeds the job is completed, not failed. -/
theorem C8_partial_ocr (job : Job) (chartNumber : String) (d1 d2 d3 : Doc)
    (r1 r2 r3 : OCRResult) (ai : AIResult) (summaryOk : Nat → Bool)
    (h1 : r1.success = true) (h2 : r2.success = false) (h3 : r3.success = true) :
    (processClaimedJob job chartNumber [(d1, r1), (d2, r2), (d3, r3)] ai
        summaryOk).aiCall = some [ocrEntry d1 r1, ocrEntry d3 r3] ∧
    DocWrite.ocrFailed d2.documentId r2.error ∈
      (processClaimedJob job chartNumber [(d1, r1), (d2, r2), (d3, r3)] ai
        summaryOk).docWrites ∧
    (ocrEntry d1 r1).extractedText = r1.extractedText ∧
    (ocrEntry d3 r3).extractedText = r3.extractedText ∧
    (ai.success = true →
      (processClaimedJob job chartNumber [(d1, r1), (d2, r2), (d3, r3)] ai
        summaryOk).queueCall = QueueCall.complete job.job_id) := by
  have he1 : (ocrEntry d1 r1).success = true := by simp [ocrEntry, h1]
  have he2 : (ocrEntry d2 r2).success = false := by simp [ocrEntry, h2]
  have he3 : (ocrEntry d3 r3).success = true := by simp [ocrEntry, h3]
  have hfil :
      (([(d1, r1), (d2, r2), (d3, r3)].map fun p => ocrEntry p.1 p.2).filter
        fun r => r.success) = [ocrEntry d1 r1, ocrEntry d3 r3] := by
    simp [List.filter, he1, he2, he3]
  have hw2 : ocrWrite d2 r2 = DocWrite.ocrFailed d2.documentId r2.error := by
    simp [ocrWrite, h2]
  have htext1 : (ocrEntry d1 r1).extractedText = r1.extractedText := by
    simp [ocrEntry, h1]
  have htext3 : (ocrEntry d3 r3).extractedText = r3.extractedText := by
    simp [ocrEntry, h3]
  by_cases hai : ai.success = true
  · simp only [processClaimedJob, hfil, hai, List.isEmpty_cons, Bool.not_true,
      if_false, formatForAI]
    refine ⟨rfl, ?_, htext1, htext3, fun _ => rfl⟩
    apply List.mem_append_left
    simp [List.map, hw2]
  · have hai' : ai.success = false := by
      cases hsucc : ai.success
      · rfl
      · exact absurd hsucc hai
    simp only [processClaimedJob, hfil, hai', List.isEmpty_cons, Bool.not_false,
      if_true, formatForAI]
    refine ⟨rfl, ?_, htext1, htext3, fun hcontra => absurd hcontra Bool.false_ne_true⟩
    simp [List.map, hw2, workerCatch]

/-- C8 witness: documents 1 and 3 succeed with texts t1 and t3, document 2 fails
with a bad-scan error, and the AI call succeeds. -/
theorem C8_partial_ocr_witness :
    (processClaimedJob jobClaimed "CH-1" [(doc1, ocrOK1), (doc2, ocrBad), (doc3, ocrOK3)]
        aiOK (fun _ => true)).aiCall =
      some [ocrEntry doc1 ocrOK1, ocrEntry doc3 ocrOK3] ∧
    DocWrite.ocrFailed doc2.documentId ocrBad.error ∈
      (processClaimedJob jobClaimed "CH-1" [(doc1, ocrOK1), (doc2, ocrBad), (doc3, ocrOK3)]
        aiOK (fun _ => true)).docWrites ∧
    (ocrEntry doc1 ocrOK1).extractedText = ocrOK1.extractedText ∧
    (ocrEntry doc3 ocrOK3).extractedText = ocrOK3.extractedText ∧
    (aiOK.success = true →
      (processClaimedJob jobClaimed "CH-1" [(doc1, ocrOK1), (doc2, ocrBad), (doc3, ocrOK3)]
        aiOK (fun _ => true)).queueCall = QueueCall.complete jobClaimed.job_id) :=
  C8_partial_ocr jobClaimed "CH-1" doc1 doc2 doc3 ocrOK1 ocrBad ocrOK3 aiOK
    (fun _ => true) (by decide) (by decide) (by decide)

/-- C1 counterexample: the first-attempt failure of jobClaimed (stale snapshot
attempts = 0 < max_attempts = 3, so not permanently failed) routes through
failJob, but the worker performs no retry_pending chart write — the only chart
write of the run is the initial processing one. -/
theorem C1_counterexample :
    (processClaimedJob jobClaimed "CH-1" [(doc1, ocrBad)] aiOK
      (fun _ => true)).queueCall =
      QueueCall.fail "job-1" "All OCR processing failed" ∧
    jobClaimed.attempts < jobClaimed.max_attempts ∧
    (processClaimedJob jobClaimed "CH-1" [(doc1, ocrBad)] aiOK
      (fun _ => true)).chartWrites = [ChartWrite.status "CH-1" "processing"] ∧
    ChartWrite.status "CH-1" "retry_pending" ∉
      (processClaimedJob jobClaimed "CH-1" [(doc1, ocrBad)] aiOK
        (fun _ => true)).chartWrites := by
  decide

/-- C1 (amended): on any thrown failure from a required phase (all OCR failed, or
the AI coding call failed) the worker calls failJob with the error message of the
phase; it writes chart ai_status failed exactly when the stale claimNextJob
snapshot satisfies attempts >= max_attempts; and it never writes a retry_pending
chart status (nor records the attempt count on the chart). -/
theorem C1_amended (job : Job) (chartNumber : String)
    (docs : List (Doc × OCRResult)) (ai : AIResult) (summaryOk : Nat → Bool)
    (hfail : (((docs.map fun p => ocrEntry p.1 p.2).filter fun r => r.success) = [])
      ∨ ai.success = false) :
    (∃ msg, (processClaimedJob job chartNumber docs ai summaryOk).queueCall =
      QueueCall.fail job.job_id msg) ∧
    (ChartWrite.status chartNumber "failed" ∈
        (processClaimedJob job chartNumber docs ai summaryOk).chartWrites ↔
      job.max_attempts ≤ job.attempts) ∧
    ∀ s : String, ChartWrite.status s "retry_pending" ∉
      (processClaimedJob job chartNumber docs ai summaryOk).chartWrites := by
  by_cases hS :
      (((docs.map fun p => ocrEntry p.1 p.2).filter fun r => r.success) = [])
  · have hrun : processClaimedJob job chartNumber docs ai summaryOk =
        workerCatch job chartNumber [ChartWrite.status chartNumber "processing"]
          (docs.map fun p => ocrWrite p.1 p.2) none "All OCR processing failed" := by
      simp only [processClaimedJob, hS, List.isEmpty_nil, if_true]
    rw [hrun]
    obtain ⟨hq, hm, hr⟩ := workerCatch_spec job chartNumber
      (docs.map fun p => ocrWrite p.1 p.2) none "All OCR processing failed"
    exact ⟨⟨"All OCR processing failed", hq⟩, hm, hr⟩
  · have hai : ai.success = false := by
      rcases hfail with hfail | hfail
      · exact absurd hfail hS
      · exact hfail
    have hne : ((docs.map fun p => ocrEntry p.1 p.2).filter
        fun r => r.success).isEmpty = false := by
      cases hc : ((docs.map fun p => ocrEntry p.1 p.2).filter fun r => r.success) with
      | nil => exact absurd hc hS
      | cons a as => rfl
    have hrun : processClaimedJob job chartNumber docs ai summaryOk =
        workerCatch job chartNumber [ChartWrite.status chartNumber "processing"]
          (docs.map fun p => ocrWrite p.1 p.2)
          (some (formatForAI (docs.map fun p => ocrEntry p.1 p.2)))
          ("AI processing failed: " ++ ai.error) := by
      simp only [processClaimedJob, hne, hai, Bool.not_false, if_true,
        Bool.false_eq_true, if_false, formatForAI]
    rw [hrun]
    obtain ⟨hq, hm, hr⟩ := workerCatch_spec job chartNumber
      (docs.map fun p => ocrWrite p.1 p.2)
      (some (formatForAI (docs.map fun p => ocrEntry p.1 p.2)))
      ("AI processing failed: " ++ ai.error)
    exact ⟨⟨"AI processing failed: " ++ ai.error, hq⟩, hm, hr⟩

/-- C1 (amended) witness: the single-document all-OCR-failed run of jobClaimed. -/
theorem C1_amended_witness :
    (∃ msg, (processClaimedJob jobClaimed "CH-1" [(doc1, ocrBad)] aiOK
      (fun _ => true)).queueCall = QueueCall.fail jobClaimed.job_id msg) ∧
    (ChartWrite.status "CH-1" "failed" ∈
        (processClaimedJob jobClaimed "CH-1" [(doc1, ocrBad)] aiOK
          (fun _ => true)).chartWrites ↔
      jobClaimed.max_attempts ≤ jobClaimed.attempts) ∧
    ∀ s : String, ChartWrite.status s "retry_pending" ∉
      (processClaimedJob jobClaimed "CH-1" [(doc1, ocrBad)] aiOK
        (fun _ => true)).chartWrites :=
  C1_amended jobClaimed "CH-1" [(doc1, ocrBad)] aiOK (fun _ => true)
    (Or.inl (by decide))

end AutoCode
